import Mathlib

/-!
Verification of the ScoutAI feature-engineering and caching subsystem
(`scripts/data_pipeline.py`, `scripts/predict_server.py`,
`scripts/train_model.py`) against its specification.

Modelling conventions:
* JSON payloads returned by `resp.json()` are modelled by the inductive
  type `JVal`; Python floats are idealised as rationals.
* Python exceptions that can escape the rating-fetch functions
  (`AttributeError`, `TypeError`, `KeyError`) are modelled with
  `Except PyErr`.
* One outbound HTTP request is modelled by a `FetchOutcome`: either a
  raised `requests.RequestException` or a status code with a JSON body.
* The stateful caches are threaded explicitly: each embedded fetch
  function takes the cache (and, for the serving path, the current
  `time.time()` value) and returns the result, the updated cache and the
  number of outbound requests it performed (0 or 1).
* Inside the feature builders the per-team rating lookup (`get_team_epa`
  resp. `get_team_epa_cached` applied to the run's cache) is injected as
  a pure map `epaOf`; the fetch/cache machinery itself is embedded and
  verified separately.
-/

/-- JSON-like values as produced by `resp.json()` in Python. -/
inductive JVal where
  | null
  | jb (b : Bool)
  | jn (q : ℚ)
  | js (s : String)
  | ja (xs : List JVal)
  | jo (fs : List (String × JVal))

/-- Python truthiness of a JSON value (used by `if data and ...` and by
`x or y` in `data_pipeline.py`). -/
def pyTruthy : JVal → Bool
  | .null => false
  | .jb b => b
  | .jn q => q != 0
  | .js s => s != ""
  | .ja xs => !xs.isEmpty
  | .jo fs => !fs.isEmpty

/-- Python `a or b` on JSON values. -/
def pyOr (a b : JVal) : JVal := if pyTruthy a then a else b

/-- Python `isinstance(v, (int, float))` together with `float(v)`;
`bool` is an `int` subclass in Python, so booleans coerce to 1/0. -/
def asNum : JVal → Option ℚ
  | .jn q => some q
  | .jb b => some (if b then 1 else 0)
  | _ => none

/-- Python exceptions that can escape the rating-fetch functions. -/
inductive PyErr where
  | attributeError
  | typeError
  | keyError
deriving DecidableEq

/-- Outcome of one outbound HTTP request: a raised
`requests.RequestException`, or a response with a status code and a
parsed JSON body. -/
inductive FetchOutcome where
  | failure
  | status (code : ℕ) (body : JVal)

/-- Canonical rating record as produced by the batch path
(`data_pipeline.get_team_epa`): four numeric fields. -/
structure TeamRating where
  total : ℚ
  auto : ℚ
  teleop : ℚ
  endgame : ℚ
deriving DecidableEq

/-- Rating record as built by the serving path
(`predict_server.get_team_epa_cached`), whose fields are the raw values
of `breakdown.get(k, {}).get("mean", 0)` and need not be numeric. -/
structure TeamRatingJ where
  total : JVal
  auto : JVal
  teleop : JVal
  endgame : JVal

/-- Python `d.get(k)` on a dict, whose missing-key default is `None`. -/
def dget (fs : List (String × JVal)) (k : String) : JVal :=
  (fs.lookup k).getD .null

/-- Python `v.get(k, dflt)`: raises `AttributeError` unless `v` is a
dict. -/
def pyGet (v : JVal) (k : String) (dflt : JVal) : Except PyErr JVal :=
  match v with
  | .jo fs => .ok ((fs.lookup k).getD dflt)
  | _ => .error .attributeError

/-- Python `k in v` for a string `k`: key test on dicts, membership on
lists, substring test on strings, `TypeError` otherwise. -/
def pyContains (v : JVal) (k : String) : Except PyErr Bool :=
  match v with
  | .jo fs => .ok (fs.lookup k).isSome
  | .ja xs => .ok (xs.any fun x => match x with | .js s => s == k | _ => false)
  | .js s => .ok ((s.splitOn k).length != 1)
  | _ => .error .typeError

/-- Python `v[k]` for a string key `k`: dict indexing; any other value
raises `TypeError` (lists and strings take integer indices). -/
def pyIndex (v : JVal) (k : String) : Except PyErr JVal :=
  match v with
  | .jo fs =>
    match fs.lookup k with
    | some x => .ok x
    | none => .error .keyError
  | _ => .error .typeError

/-- `safe_mean` from `data_pipeline.get_team_epa`: on a dict take its
`"mean"` entry if numeric, on a number take the number, otherwise 0. -/
def safe_mean (value : JVal) : ℚ :=
  match value with
  | .jo fs =>
    match asNum (dget fs "mean") with
    | some q => q
    | none => 0
  | v =>
    match asNum v with
    | some q => q
    | none => 0

/-- `data_pipeline.statbotics_get`: `None` on a request failure or a
non-200 status, else the parsed JSON body. -/
def statbotics_get (resp : FetchOutcome) : Option JVal :=
  match resp with
  | .failure => none
  | .status code body => if code = 200 then some body else none

/-- The extraction section of `data_pipeline.get_team_epa` (lines
117-158): turns the optional JSON payload into `some rating` / `none`,
or raises where the Python would (`"epa" in data` on a non-container,
`data["epa"]` on a non-dict). -/
def parse_epa_batch (data : Option JVal) : Except PyErr (Option TeamRating) :=
  match data with
  | none => .ok none
  | some d =>
    if pyTruthy d then
      match pyContains d "epa" with
      | .error e => .error e
      | .ok false => .ok none
      | .ok true =>
        match pyIndex d "epa" with
        | .error e => .error e
        | .ok epa =>
          match epa with
          | .jo fs =>
            match dget fs "breakdown" with
            | .jo bd =>
              .ok (some ⟨safe_mean (dget bd "total_points"),
                         safe_mean (dget bd "auto_points"),
                         safe_mean (dget bd "teleop_points"),
                         safe_mean (dget bd "endgame_points")⟩)
            | _ =>
              .ok (some ⟨safe_mean (pyOr (dget fs "total_points")
                            (pyOr (dget fs "total")
                              (pyOr (dget fs "mean") (dget fs "epa")))),
                         safe_mean (pyOr (dget fs "auto_points") (dget fs "auto")),
                         safe_mean (pyOr (dget fs "teleop_points") (dget fs "teleop")),
                         safe_mean (pyOr (dget fs "endgame_points") (dget fs "endgame"))⟩)
          | other =>
            match asNum other with
            | some q => .ok (some ⟨q, 0, 0, 0⟩)
            | none => .ok none
    else .ok none

/-- Result of one call to `data_pipeline.get_team_epa`: the returned
value (or raised exception), the updated `epa_cache`, and the number of
outbound Statbotics requests performed. -/
structure BatchCall where
  result : Except PyErr (Option TeamRating)
  cache : List (String × Option TeamRating)
  fetches : ℕ

/-- `data_pipeline.get_team_epa` for a cache key `f"{team_num}-{event_key}"`,
with the single outbound request's outcome supplied as `resp`.  A raised
parse exception propagates before anything is stored in the cache. -/
def get_team_epa (key : String) (resp : FetchOutcome)
    (epa_cache : List (String × Option TeamRating)) : BatchCall :=
  match epa_cache.lookup key with
  | some v => ⟨.ok v, epa_cache, 0⟩
  | none =>
    match parse_epa_batch (statbotics_get resp) with
    | .error e => ⟨.error e, epa_cache, 1⟩
    | .ok r => ⟨.ok r, (key, r) :: epa_cache, 1⟩

/-- The parsing section of `predict_server.get_team_epa_cached` applied
to the body of a 200 response (lines 59-67): a chain of `.get` calls
with dict defaults, each raising `AttributeError` on a non-dict. -/
def parse_epa_serving (data : JVal) : Except PyErr TeamRatingJ := do
  let epa ← pyGet data "epa" (.jo [])
  let breakdown ← pyGet epa "breakdown" (.jo [])
  let tp ← pyGet breakdown "total_points" (.jo [])
  let total ← pyGet tp "mean" (.jn 0)
  let ap ← pyGet breakdown "auto_points" (.jo [])
  let auto ← pyGet ap "mean" (.jn 0)
  let tlp ← pyGet breakdown "teleop_points" (.jo [])
  let teleop ← pyGet tlp "mean" (.jn 0)
  let egp ← pyGet breakdown "endgame_points" (.jo [])
  let endgame ← pyGet egp "mean" (.jn 0)
  return ⟨total, auto, teleop, endgame⟩

/-- Result of one call to `predict_server.get_team_epa_cached`. -/
structure ServingCall where
  result : Except PyErr (Option TeamRatingJ)
  cache : List (String × (Option TeamRatingJ × ℚ))
  fetches : ℕ

/-- `EPA_CACHE_TTL` from `predict_server.py` (seconds). -/
def EPA_CACHE_TTL : ℚ := 600

/-- The fetch-and-store section of `get_team_epa_cached` (lines 54-74):
failures and non-200 statuses are negatively cached; a parse exception
propagates before anything is stored. -/
def serving_fetch (key : String) (now : ℚ) (resp : FetchOutcome)
    (epa_cache : List (String × (Option TeamRatingJ × ℚ))) : ServingCall :=
  match resp with
  | .failure => ⟨.ok none, (key, (none, now)) :: epa_cache, 1⟩
  | .status code body =>
    if code = 200 then
      match parse_epa_serving body with
      | .ok r => ⟨.ok (some r), (key, (some r, now)) :: epa_cache, 1⟩
      | .error e => ⟨.error e, epa_cache, 1⟩
    else ⟨.ok none, (key, (none, now)) :: epa_cache, 1⟩

/-- `predict_server.get_team_epa_cached` for a cache key
`f"{team_num}-{event_key}"`, with `now = time.time()` and the outbound
request's outcome supplied as `resp`. -/
def get_team_epa_cached (key : String) (now : ℚ) (resp : FetchOutcome)
    (epa_cache : List (String × (Option TeamRatingJ × ℚ))) : ServingCall :=
  match epa_cache.lookup key with
  | some (data, ts) =>
    if now - ts < EPA_CACHE_TTL then ⟨.ok data, epa_cache, 0⟩
    else serving_fetch key now resp epa_cache
  | none => serving_fetch key now resp epa_cache

/-- `np.mean` over a nonempty list, idealised over the rationals. -/
def np_mean (xs : List ℚ) : ℚ := xs.sum / xs.length

/-- Python `max` over a nonempty list (left fold). -/
def list_max : List ℚ → ℚ
  | [] => 0
  | x :: xs => xs.foldl max x

/-- `alliance_features` from `data_pipeline.build_feature_vector`
(lines 200-213).  The returned Python dict is modelled as an
insertion-ordered association list; `tag` is the `prefix` argument. -/
def alliance_features (epas : List (Option TeamRating)) (tag : String) :
    List (String × ℚ) :=
  let valid := epas.filterMap id
  if valid.isEmpty then
    [(tag ++ "_avg_epa", 0), (tag ++ "_avg_auto", 0), (tag ++ "_avg_teleop", 0),
     (tag ++ "_avg_endgame", 0), (tag ++ "_sum_epa", 0), (tag ++ "_max_epa", 0)]
  else
    [(tag ++ "_avg_epa", np_mean (valid.map TeamRating.total)),
     (tag ++ "_avg_auto", np_mean (valid.map TeamRating.auto)),
     (tag ++ "_avg_teleop", np_mean (valid.map TeamRating.teleop)),
     (tag ++ "_avg_endgame", np_mean (valid.map TeamRating.endgame)),
     (tag ++ "_sum_epa", (valid.map TeamRating.total).sum),
     (tag ++ "_max_epa", list_max (valid.map TeamRating.total))]

/-- Removal of every occurrence of `"frc"`, scanning left to right
without rescanning, as Python's `key.replace("frc", "")` does. -/
def remove_frc : List Char → List Char
  | 'f' :: 'r' :: 'c' :: rest => remove_frc rest
  | c :: rest => c :: remove_frc rest
  | [] => []

/-- Value of a decimal digit character. -/
def digit_val (c : Char) : Option ℕ :=
  if c.isDigit then some (c.toNat - '0'.toNat) else none

/-- Parse a nonempty all-digit character list as a natural number. -/
def digits_to_nat (cs : List Char) : Option ℕ :=
  match cs with
  | [] => none
  | _ =>
    cs.foldl (fun acc c => acc.bind fun n => (digit_val c).map fun d => 10 * n + d)
      (some 0)

/-- Python `int(s)` on an optionally signed decimal string, `none` on
the `ValueError` that makes `extract_team_numbers` skip the key. -/
def to_int_py : List Char → Option ℤ
  | '-' :: rest => (digits_to_nat rest).map fun n => -(n : ℤ)
  | '+' :: rest => (digits_to_nat rest).map fun n => (n : ℤ)
  | cs => (digits_to_nat cs).map fun n => (n : ℤ)

/-- `data_pipeline.extract_team_numbers`: strip `"frc"` from each team
key and parse the remainder as an integer, skipping unparsable keys. -/
def extract_team_numbers (team_keys : List String) : List ℤ :=
  team_keys.filterMap fun k => to_int_py (remove_frc k.data)

/-- One alliance in a TBA match record: team keys and a score. -/
structure AllianceRec where
  team_keys : List String
  score : ℤ

/-- A completed TBA match record, as consumed by
`build_feature_vector`. -/
structure MatchRec where
  red : AllianceRec
  blue : AllianceRec
  comp_level : String

/-- A TBA event record: key and possibly-null week. -/
structure EventRec where
  key : String
  week : Option ℤ

/-- The comp-level encoding
`{"qm": 0, "ef": 1, "qf": 1, "sf": 2, "f": 3}.get(comp_level, 0)`. -/
def comp_encode (cl : String) : ℚ :=
  if cl = "qm" then 0 else if cl = "ef" then 1 else if cl = "qf" then 1
  else if cl = "sf" then 2 else if cl = "f" then 3 else 0

/-- `event.get("week", 0) or 0`: a missing or null week becomes 0. -/
def event_week_of (event : EventRec) : ℚ :=
  match event.week with
  | none => 0
  | some w => (w : ℚ)

/-- `data_pipeline.build_feature_vector`.  The per-team rating fetch
(`get_team_epa` with the run's cache) is injected as the pure map
`epaOf`; the produced row is the Python dict in insertion order. -/
def build_feature_vector (m : MatchRec) (event : EventRec)
    (epaOf : ℤ → Option TeamRating) : Option (List (String × ℚ)) :=
  let red_teams := extract_team_numbers m.red.team_keys
  let blue_teams := extract_team_numbers m.blue.team_keys
  if red_teams.length < 3 ∨ blue_teams.length < 3 then none
  else
    let red_score := m.red.score
    let blue_score := m.blue.score
    let red_epas := (red_teams.take 3).map epaOf
    let blue_epas := (blue_teams.take 3).map epaOf
    let red_valid := red_epas.filterMap id
    let blue_valid := blue_epas.filterMap id
    if red_valid.length < 2 ∨ blue_valid.length < 2 then none
    else
      let red_feats := alliance_features red_epas "red"
      let blue_feats := alliance_features blue_epas "blue"
      let comp_encoded := comp_encode m.comp_level
      let week := event_week_of event
      let epa_diff := (red_feats.lookup "red_sum_epa").getD 0 -
        (blue_feats.lookup "blue_sum_epa").getD 0
      let avg_epa_diff := (red_feats.lookup "red_avg_epa").getD 0 -
        (blue_feats.lookup "blue_avg_epa").getD 0
      match (if red_score > blue_score then some (1 : ℚ)
             else if blue_score > red_score then some 0 else none) with
      | none => none
      | some winner =>
        some (red_feats ++ blue_feats ++
          [("comp_level", comp_encoded), ("event_week", week),
           ("epa_diff", epa_diff), ("avg_epa_diff", avg_epa_diff),
           ("winner", winner), ("red_score", (red_score : ℚ)),
           ("blue_score", (blue_score : ℚ)),
           ("score_margin", ((red_score - blue_score : ℤ) : ℚ))])

/-- `avg_or_zero` from `predict_server.build_features`. -/
def avg_or_zero (epas : List TeamRating) (f : TeamRating → ℚ) : ℚ :=
  if epas.isEmpty then 0 else np_mean (epas.map f)

/-- `sum_or_zero` from `predict_server.build_features`. -/
def sum_or_zero (epas : List TeamRating) (f : TeamRating → ℚ) : ℚ :=
  if epas.isEmpty then 0 else (epas.map f).sum

/-- `max_or_zero` from `predict_server.build_features`. -/
def max_or_zero (epas : List TeamRating) (f : TeamRating → ℚ) : ℚ :=
  if epas.isEmpty then 0 else list_max (epas.map f)

/-- `FEATURE_COLS` from `train_model.py`, the canonical 16-field order;
persisted to `feature_columns.joblib` and reloaded by the server. -/
def FEATURE_COLS : List String :=
  ["red_avg_epa", "red_avg_auto", "red_avg_teleop", "red_avg_endgame",
   "red_sum_epa", "red_max_epa",
   "blue_avg_epa", "blue_avg_auto", "blue_avg_teleop", "blue_avg_endgame",
   "blue_sum_epa", "blue_max_epa",
   "comp_level", "event_week", "epa_diff", "avg_epa_diff"]

/-- `predict_server.build_features`.  Rating fetches are injected as
`epaOf` and the persisted column-list artifact as `feature_cols`; the
result is the row `[[features[col] for col in feature_cols]]`. -/
def build_features (red_teams blue_teams : List ℤ)
    (comp_level event_week : ℚ) (feature_cols : List String)
    (epaOf : ℤ → Option TeamRating) : Option (List ℚ) :=
  let red_epas := red_teams.map epaOf
  let blue_epas := blue_teams.map epaOf
  let red_valid := red_epas.filterMap id
  let blue_valid := blue_epas.filterMap id
  if red_valid.isEmpty || blue_valid.isEmpty then none
  else
    let features : List (String × ℚ) :=
      [("red_avg_epa", avg_or_zero red_valid TeamRating.total),
       ("red_avg_auto", avg_or_zero red_valid TeamRating.auto),
       ("red_avg_teleop", avg_or_zero red_valid TeamRating.teleop),
       ("red_avg_endgame", avg_or_zero red_valid TeamRating.endgame),
       ("red_sum_epa", sum_or_zero red_valid TeamRating.total),
       ("red_max_epa", max_or_zero red_valid TeamRating.total),
       ("blue_avg_epa", avg_or_zero blue_valid TeamRating.total),
       ("blue_avg_auto", avg_or_zero blue_valid TeamRating.auto),
       ("blue_avg_teleop", avg_or_zero blue_valid TeamRating.teleop),
       ("blue_avg_endgame", avg_or_zero blue_valid TeamRating.endgame),
       ("blue_sum_epa", sum_or_zero blue_valid TeamRating.total),
       ("blue_max_epa", max_or_zero blue_valid TeamRating.total),
       ("comp_level", comp_level),
       ("event_week", event_week),
       ("epa_diff", sum_or_zero red_valid TeamRating.total -
          sum_or_zero blue_valid TeamRating.total),
       ("avg_epa_diff", avg_or_zero red_valid TeamRating.total -
          avg_or_zero blue_valid TeamRating.total)]
    some (feature_cols.map fun c => (features.lookup c).getD 0)

/-- Python `round` to the nearest integer, halves to even. -/
def pyRound (x : ℚ) : ℤ :=
  let f := Int.floor x
  let r := x - f
  if r < 1 / 2 then f
  else if 1 / 2 < r then f + 1
  else if 2 ∣ f then f else f + 1

/-- Python `round(x, 3)`. -/
def round3 (x : ℚ) : ℚ := (pyRound (x * 1000) : ℚ) / 1000

/-- Outcome of `POST /predict`: a raised `HTTPException` with its
status code, or a `PredictResponse`. -/
inductive PredictOutcome where
  | httpError (code : ℕ)
  | response (winner : String) (win_probability : ℚ)
      (red_score blue_score margin : ℤ)

/-- `predict_server.predict`.  The opaque model artifacts are injected:
`featureResult` is `build_features(...)`, `win_prob` is
`clf.predict_proba(X_scaled)[0, 1]` and `red_pred`/`blue_pred` are the
two regressor outputs on the scaled features. -/
def predict (models_loaded : Bool) (red_teams blue_teams : List ℤ)
    (featureResult : Option (List ℚ))
    (win_prob red_pred blue_pred : ℚ) : PredictOutcome :=
  if !models_loaded then .httpError 503
  else if red_teams.length ≠ 3 ∨ blue_teams.length ≠ 3 then .httpError 400
  else
    match featureResult with
    | none => .httpError 422
    | some _ =>
      let red_score := max 0 (pyRound red_pred)
      let blue_score := max 0 (pyRound blue_pred)
      let winner := if win_prob > 1 / 2 then "red" else "blue"
      .response winner
        (round3 (if winner = "red" then win_prob else 1 - win_prob))
        red_score blue_score |red_score - blue_score|

/-- Test that a serving-path field value is exactly the given rational. -/
def num_is (v : JVal) (q : ℚ) : Bool :=
  match v with
  | .jn r => r == q
  | _ => false

/-- Agreement between a batch fetch result and a serving fetch result:
both absent, or both a rating with numerically identical fields; a
raised exception on either side never agrees. -/
def fetch_agree (b : Except PyErr (Option TeamRating))
    (s : Except PyErr (Option TeamRatingJ)) : Bool :=
  match b, s with
  | .ok none, .ok none => true
  | .ok (some br), .ok (some sr) =>
    num_is sr.total br.total && num_is sr.auto br.auto &&
    num_is sr.teleop br.teleop && num_is sr.endgame br.endgame
  | _, _ => false

/-- One point category of a breakdown dict in the shape on which the
batch and serving extractions coincide: absent, or a dict whose
`"mean"` entry is absent or numeric. -/
def good_point_cat (bd : List (String × JVal)) (k : String) : Bool :=
  match bd.lookup k with
  | none => true
  | some (.jo tp) =>
    match tp.lookup "mean" with
    | none => true
    | some (.jn _) => true
    | some _ => false
  | some _ => false

/-- A JSON object whose `epa.breakdown` is a structured dict, each of
whose four point categories is `good_point_cat`. -/
def structured_payload : JVal → Bool
  | .jo dfs =>
    match dfs.lookup "epa" with
    | some (.jo fs) =>
      match fs.lookup "breakdown" with
      | some (.jo bd) =>
        good_point_cat bd "total_points" && good_point_cat bd "auto_points" &&
        good_point_cat bd "teleop_points" && good_point_cat bd "endgame_points"
      | _ => false
    | _ => false
  | _ => false

lemma lookup_ne_nil {α β : Type} [BEq α] {l : List (α × β)} {k : α} {v : β}
    (h : l.lookup k = some v) : l.isEmpty = false := by
  cases l with
  | nil => simp [List.lookup] at h
  | cons a as => simp [List.isEmpty]

lemma point_cat_agree {bd : List (String × JVal)} {k : String}
    (h : good_point_cat bd k = true) :
    pyGet ((bd.lookup k).getD (.jo [])) "mean" (.jn 0) =
      .ok (.jn (safe_mean (dget bd k))) := by
  unfold good_point_cat at h
  unfold dget
  cases hb : bd.lookup k with
  | none => simp [hb, pyGet, safe_mean, asNum, dget, List.lookup]
  | some v =>
    rw [hb] at h
    cases v with
    | jo tp =>
      dsimp only at h
      cases hm : tp.lookup "mean" with
      | none => simp [hm, pyGet, safe_mean, asNum, dget]
      | some m =>
        rw [hm] at h
        cases m <;> simp_all [pyGet, safe_mean, asNum, dget]
    | null => simp at h
    | jb b => simp at h
    | jn q => simp at h
    | js s => simp at h
    | ja xs => simp at h

lemma parse_batch_structured {dfs fs bd : List (String × JVal)}
    (he : dfs.lookup "epa" = some (.jo fs))
    (hbk : fs.lookup "breakdown" = some (.jo bd)) :
    parse_epa_batch (some (.jo dfs)) =
      .ok (some ⟨safe_mean (dget bd "total_points"),
                 safe_mean (dget bd "auto_points"),
                 safe_mean (dget bd "teleop_points"),
                 safe_mean (dget bd "endgame_points")⟩) := by
  have hne := lookup_ne_nil he
  simp [parse_epa_batch, pyTruthy, hne, pyContains, he, pyIndex, dget, hbk]

lemma pyGet_jo (fs : List (String × JVal)) (k : String) (d : JVal) :
    pyGet (.jo fs) k d = .ok ((fs.lookup k).getD d) := rfl

lemma parse_serving_structured {dfs fs bd : List (String × JVal)}
    (he : dfs.lookup "epa" = some (.jo fs))
    (hbk : fs.lookup "breakdown" = some (.jo bd))
    (h1 : good_point_cat bd "total_points" = true)
    (h2 : good_point_cat bd "auto_points" = true)
    (h3 : good_point_cat bd "teleop_points" = true)
    (h4 : good_point_cat bd "endgame_points" = true) :
    parse_epa_serving (.jo dfs) =
      .ok ⟨.jn (safe_mean (dget bd "total_points")),
           .jn (safe_mean (dget bd "auto_points")),
           .jn (safe_mean (dget bd "teleop_points")),
           .jn (safe_mean (dget bd "endgame_points"))⟩ := by
  simp [parse_epa_serving, pyGet_jo, he, hbk, point_cat_agree h1, point_cat_agree h2,
        point_cat_agree h3, point_cat_agree h4, Bind.bind, Except.bind,
        Pure.pure, Except.pure]

/-- C1: the claim that the batch-path and serving-path rating
extractions always produce the same record-or-absent result fails; it
holds once the payload is restricted to fetch failures, non-200
statuses, and 200 payloads whose `epa.breakdown` is a structured dict
with numeric-or-absent point-category means.  Starting from empty
caches, on such an outcome both paths yield the numerically identical
rating record or both yield absent. -/
theorem C1_agreement (key : String) (now : ℚ) (resp : FetchOutcome)
    (h : ∀ code body, resp = .status code body → code = 200 →
      structured_payload body = true) :
    fetch_agree (get_team_epa key resp []).result
      (get_team_epa_cached key now resp []).result = true := by
  cases resp with
  | failure => rfl
  | status code body =>
    by_cases hc : code = 200
    · subst hc
      have hs := h 200 body rfl rfl
      cases body with
      | jo dfs =>
        unfold structured_payload at hs
        dsimp only at hs
        cases he : dfs.lookup "epa" with
        | none => rw [he] at hs; simp at hs
        | some epa =>
          rw [he] at hs
          cases epa with
          | jo fs =>
            dsimp only at hs
            cases hbk : fs.lookup "breakdown" with
            | none => rw [hbk] at hs; simp at hs
            | some bk =>
              rw [hbk] at hs
              cases bk with
              | jo bd =>
                dsimp only at hs
                rw [Bool.and_assoc, Bool.and_assoc] at hs
                rw [Bool.and_eq_true, Bool.and_eq_true, Bool.and_eq_true] at hs
                obtain ⟨h1, h2, h3, h4⟩ := hs
                have hbatch := parse_batch_structured he hbk
                have hserve := parse_serving_structured he hbk h1 h2 h3 h4
                simp [get_team_epa, get_team_epa_cached, serving_fetch,
                      statbotics_get, List.lookup, hbatch, hserve,
                      fetch_agree, num_is]
              | null => simp at hs
              | jb b => simp at hs
              | jn q => simp at hs
              | js s => simp at hs
              | ja xs => simp at hs
          | null => simp at hs
          | jb b => simp at hs
          | jn q => simp at hs
          | js s => simp at hs
          | ja xs => simp at hs
      | null => simp [structured_payload] at hs
      | jb b => simp [structured_payload] at hs
      | jn q => simp [structured_payload] at hs
      | js s => simp [structured_payload] at hs
      | ja xs => simp [structured_payload] at hs
    · simp [get_team_epa, get_team_epa_cached, serving_fetch, statbotics_get,
            List.lookup, parse_epa_batch, hc, fetch_agree]

/-- C1 counterexample: on the 200 payload `{"epa": {"total": 10}}` the
batch path extracts the rating `{total: 10, auto: 0, teleop: 0,
endgame: 0}` through its flat-key fallback, while the serving path,
which only reads `epa.breakdown`, returns an all-zero record — so the
two extractions do not produce the same result on every payload. -/
theorem C1_counterexample :
    (get_team_epa "254-2024casj"
        (.status 200 (.jo [("epa", .jo [("total", .jn 10)])])) []).result =
      .ok (some ⟨10, 0, 0, 0⟩) ∧
    (get_team_epa_cached "254-2024casj" 0
        (.status 200 (.jo [("epa", .jo [("total", .jn 10)])])) []).result =
      .ok (some ⟨.jn 0, .jn 0, .jn 0, .jn 0⟩) ∧
    fetch_agree
      (get_team_epa "254-2024casj"
        (.status 200 (.jo [("epa", .jo [("total", .jn 10)])])) []).result
      (get_team_epa_cached "254-2024casj" 0
        (.status 200 (.jo [("epa", .jo [("total", .jn 10)])])) []).result = false :=
  ⟨rfl, rfl, rfl⟩

/-- C1 witness: on a 200 payload with a structured breakdown
(`{"epa": {"breakdown": {"total_points": {"mean": 37}}}}`) the amended
agreement theorem applies and both extractions coincide. -/
theorem C1_witness :
    fetch_agree
      (get_team_epa "254-2024casj"
        (.status 200 (.jo [("epa", .jo [("breakdown",
          .jo [("total_points", .jo [("mean", .jn 37)])])])])) []).result
      (get_team_epa_cached "254-2024casj" 0
        (.status 200 (.jo [("epa", .jo [("breakdown",
          .jo [("total_points", .jo [("mean", .jn 37)])])])])) []).result = true :=
  C1_agreement "254-2024casj" 0 _ (fun _ _ heq _ => by cases heq; rfl)

/-- C3: the claim that a single rating fetch never raises is right as a
specification but the code violates it: on an HTTP 200 response with
body `{"epa": 5}` the serving fetch raises `AttributeError` (`.get` on
an int) before caching anything, and on a 200 response whose body is
the bare number 5 the batch fetch raises `TypeError` (`"epa" in 5`). -/
theorem C3_code_bug :
    (get_team_epa_cached "254-2024casj" 0
        (.status 200 (.jo [("epa", .jn 5)])) []).result =
      .error .attributeError ∧
    (get_team_epa "254-2024casj" (.status 200 (.jn 5)) []).result =
      .error .typeError :=
  ⟨rfl, rfl⟩

/-- C2: the sufficiency gates are asymmetric.  The batch builder
(`build_feature_vector`) emits a row only when at least 2 of the 3
fetched ratings are valid on both alliances; the serving builder
(`build_features`) returns a vector whenever each alliance has at least
1 valid rating, and returns nothing only when some alliance has no
valid rating. -/
theorem C2_sufficiency_gates :
    (∀ (m : MatchRec) (event : EventRec) (epaOf : ℤ → Option TeamRating)
       (row : List (String × ℚ)), build_feature_vector m event epaOf = some row →
       2 ≤ ((((extract_team_numbers m.red.team_keys).take 3).map epaOf).filterMap id).length ∧
       2 ≤ ((((extract_team_numbers m.blue.team_keys).take 3).map epaOf).filterMap id).length) ∧
    (∀ (rt bt : List ℤ) (cl wk : ℚ) (cols : List String)
       (epaOf : ℤ → Option TeamRating),
       (rt.map epaOf).filterMap id ≠ [] → (bt.map epaOf).filterMap id ≠ [] →
       (build_features rt bt cl wk cols epaOf).isSome = true) ∧
    (∀ (rt bt : List ℤ) (cl wk : ℚ) (cols : List String)
       (epaOf : ℤ → Option TeamRating),
       build_features rt bt cl wk cols epaOf = none →
       (rt.map epaOf).filterMap id = [] ∨ (bt.map epaOf).filterMap id = []) := by
  refine ⟨?_, ?_, ?_⟩
  · intro m event epaOf row h
    simp only [build_feature_vector] at h
    split at h
    · simp at h
    · split at h
      · simp at h
      · next hg =>
        push_neg at hg
        exact ⟨hg.1, hg.2⟩
  · intro rt bt cl wk cols epaOf hr hb
    simp only [build_features]
    split
    · next hcond =>
      rw [Bool.or_eq_true] at hcond
      rcases hcond with h' | h'
      · exact absurd (List.isEmpty_iff.mp h') hr
      · exact absurd (List.isEmpty_iff.mp h') hb
    · rfl
  · intro rt bt cl wk cols epaOf h
    simp only [build_features] at h
    split at h
    · next hcond =>
      rw [Bool.or_eq_true] at hcond
      rcases hcond with h' | h'
      · exact Or.inl (List.isEmpty_iff.mp h')
      · exact Or.inr (List.isEmpty_iff.mp h')
    · simp at h

/-- C2 witness: with every rating resolving, the serving builder
produces a vector; with every rating absent, it returns nothing and the
red alliance indeed has no valid rating. -/
theorem C2_witness :
    (build_features [1, 2, 3] [4, 5, 6] 0 0 FEATURE_COLS
       (fun _ => some ⟨10, 1, 2, 3⟩)).isSome = true ∧
    (([1, 2, 3].map (fun _ => (none : Option TeamRating))).filterMap id = [] ∨
     ([4, 5, 6].map (fun _ => (none : Option TeamRating))).filterMap id = []) :=
  ⟨C2_sufficiency_gates.2.1 [1, 2, 3] [4, 5, 6] 0 0 FEATURE_COLS
     (fun _ => some ⟨10, 1, 2, 3⟩) (by decide) (by decide),
   C2_sufficiency_gates.2.2 [1, 2, 3] [4, 5, 6] 0 0 FEATURE_COLS
     (fun _ => none) rfl⟩

lemma alliance_keys (epas : List (Option TeamRating)) (tag : String) :
    (alliance_features epas tag).map Prod.fst =
      [tag ++ "_avg_epa", tag ++ "_avg_auto", tag ++ "_avg_teleop",
       tag ++ "_avg_endgame", tag ++ "_sum_epa", tag ++ "_max_epa"] := by
  simp only [alliance_features]
  split <;> rfl

lemma lookup_append_of_ne (l1 : List (String × ℚ)) {l2 : List (String × ℚ)}
    {k : String} (h : ∀ p ∈ l1, p.1 ≠ k) :
    (l1 ++ l2).lookup k = l2.lookup k := by
  induction l1 with
  | nil => rfl
  | cons a as ih =>
    have ha : (k == a.1) = false :=
      beq_eq_false_iff_ne.mpr (fun he => h a (List.mem_cons_self a as) he.symm)
    obtain ⟨a1, a2⟩ := a
    simp only [List.cons_append, List.lookup, ha]
    exact ih (fun p hp => h p (List.mem_cons_of_mem _ hp))

lemma alliance_mem_ne {epas : List (Option TeamRating)} {tag k : String}
    (hk : k ∉ [tag ++ "_avg_epa", tag ++ "_avg_auto", tag ++ "_avg_teleop",
      tag ++ "_avg_endgame", tag ++ "_sum_epa", tag ++ "_max_epa"]) :
    ∀ p ∈ alliance_features epas tag, p.1 ≠ k := by
  intro p hp hpk
  exact hk (hpk ▸ (alliance_keys epas tag ▸ List.mem_map_of_mem Prod.fst hp))

lemma lookup_winner_row (re be : List (Option TeamRating))
    (tail : List (String × ℚ)) :
    (alliance_features re "red" ++ alliance_features be "blue" ++ tail).lookup
      "winner" = tail.lookup "winner" := by
  simp only [List.append_assoc]
  rw [lookup_append_of_ne (alliance_features re "red")
        (alliance_mem_ne (by decide)),
      lookup_append_of_ne (alliance_features be "blue")
        (alliance_mem_ne (by decide))]

/-- C7: every produced feature vector carries the 16 feature fields in
the canonical order: a batch row's first 16 keys are exactly
`FEATURE_COLS` (followed by the label and score columns), and the
serving vector built from the persisted column list `FEATURE_COLS`
lists exactly the canonical fields' values in that order. -/
theorem C7_column_order :
    (∀ (m : MatchRec) (event : EventRec) (epaOf : ℤ → Option TeamRating)
       (row : List (String × ℚ)), build_feature_vector m event epaOf = some row →
       row.map Prod.fst =
         FEATURE_COLS ++ ["winner", "red_score", "blue_score", "score_margin"]) ∧
    (∀ (rt bt : List ℤ) (cl wk : ℚ) (epaOf : ℤ → Option TeamRating)
       (v : List ℚ) (rv bv : List TeamRating),
       rv = (rt.map epaOf).filterMap id → bv = (bt.map epaOf).filterMap id →
       build_features rt bt cl wk FEATURE_COLS epaOf = some v →
       v = [avg_or_zero rv TeamRating.total, avg_or_zero rv TeamRating.auto,
            avg_or_zero rv TeamRating.teleop, avg_or_zero rv TeamRating.endgame,
            sum_or_zero rv TeamRating.total, max_or_zero rv TeamRating.total,
            avg_or_zero bv TeamRating.total, avg_or_zero bv TeamRating.auto,
            avg_or_zero bv TeamRating.teleop, avg_or_zero bv TeamRating.endgame,
            sum_or_zero bv TeamRating.total, max_or_zero bv TeamRating.total,
            cl, wk,
            sum_or_zero rv TeamRating.total - sum_or_zero bv TeamRating.total,
            avg_or_zero rv TeamRating.total - avg_or_zero bv TeamRating.total]) := by
  constructor
  · intro m event epaOf row h
    simp only [build_feature_vector] at h
    split at h
    · simp at h
    · split at h
      · simp at h
      · split at h
        · simp at h
        · next winner heq =>
          rw [Option.some_inj] at h
          subst h
          simp only [List.map_append, alliance_keys]
          rfl
  · intro rt bt cl wk epaOf v rv bv hrv hbv h
    subst hrv
    subst hbv
    simp only [build_features] at h
    split at h
    · simp at h
    · rw [Option.some_inj] at h
      subst h
      rfl

/-- C8: the batch label is winner = 1 exactly on rows of matches red
won and winner = 0 exactly on rows of matches blue won, and a tied
match never produces a training row. -/
theorem C8_winner_label :
    (∀ (m : MatchRec) (event : EventRec) (epaOf : ℤ → Option TeamRating),
       m.red.score = m.blue.score → build_feature_vector m event epaOf = none) ∧
    (∀ (m : MatchRec) (event : EventRec) (epaOf : ℤ → Option TeamRating)
       (row : List (String × ℚ)), build_feature_vector m event epaOf = some row →
       (m.blue.score < m.red.score → row.lookup "winner" = some 1) ∧
       (m.red.score < m.blue.score → row.lookup "winner" = some 0)) := by
  constructor
  · intro m event epaOf htie
    simp only [build_feature_vector]
    split
    · rfl
    · split
      · rfl
      · simp [htie, lt_irrefl]
  · intro m event epaOf row h
    simp only [build_feature_vector] at h
    split at h
    · simp at h
    · split at h
      · simp at h
      · split at h
        · simp at h
        · next winner heq =>
          rw [Option.some_inj] at h
          subst h
          rw [lookup_winner_row]
          split at heq
          · next hrb =>
            rw [Option.some_inj] at heq
            subst heq
            exact ⟨fun _ => rfl, fun hbr => absurd hbr (by omega)⟩
          · split at heq
            · next hrb hbr =>
              rw [Option.some_inj] at heq
              subst heq
              exact ⟨fun hx => absurd hx (by omega), fun _ => rfl⟩
            · simp at heq

/-- C7 witness: a concrete accepted match (red 10, blue 5, all six
ratings resolving) whose produced row lists the 16 canonical feature
columns in order, followed by the label and score columns. -/
theorem C7_witness :
    (build_feature_vector ⟨⟨["frc1", "frc2", "frc3"], 10⟩,
        ⟨["frc4", "frc5", "frc6"], 5⟩, "qm"⟩ ⟨"2024casj", some 3⟩
        (fun _ => some ⟨10, 1, 2, 3⟩)).map (List.map Prod.fst) =
      some (FEATURE_COLS ++ ["winner", "red_score", "blue_score", "score_margin"]) :=
  congrArg some (C7_column_order.1 ⟨⟨["frc1", "frc2", "frc3"], 10⟩,
    ⟨["frc4", "frc5", "frc6"], 5⟩, "qm"⟩ ⟨"2024casj", some 3⟩
    (fun _ => some ⟨10, 1, 2, 3⟩) _ rfl)

/-- C8 witness: a tied concrete match (7-7) yields no row, and the
accepted 10-5 match of the previous configuration carries winner = 1 in
its row. -/
theorem C8_witness :
    build_feature_vector ⟨⟨["frc1", "frc2", "frc3"], 7⟩,
        ⟨["frc4", "frc5", "frc6"], 7⟩, "qm"⟩ ⟨"2024casj", some 3⟩
        (fun _ => some ⟨10, 1, 2, 3⟩) = none ∧
    (build_feature_vector ⟨⟨["frc1", "frc2", "frc3"], 10⟩,
        ⟨["frc4", "frc5", "frc6"], 5⟩, "qm"⟩ ⟨"2024casj", some 3⟩
        (fun _ => some ⟨10, 1, 2, 3⟩)).map (fun l => l.lookup "winner") =
      some (some 1) :=
  ⟨C8_winner_label.1 ⟨⟨["frc1", "frc2", "frc3"], 7⟩,
     ⟨["frc4", "frc5", "frc6"], 7⟩, "qm"⟩ ⟨"2024casj", some 3⟩
     (fun _ => some ⟨10, 1, 2, 3⟩) rfl,
   congrArg some ((C8_winner_label.2 ⟨⟨["frc1", "frc2", "frc3"], 10⟩,
     ⟨["frc4", "frc5", "frc6"], 5⟩, "qm"⟩ ⟨"2024casj", some 3⟩
     (fun _ => some ⟨10, 1, 2, 3⟩) _ rfl).1 (by decide))⟩

lemma le_foldl_max (xs : List ℚ) (x : ℚ) : x ≤ xs.foldl max x := by
  induction xs generalizing x with
  | nil => exact le_refl x
  | cons y ys ih => exact le_trans (le_max_left x y) (ih (max x y))

lemma foldl_max_mem (xs : List ℚ) (x : ℚ) : xs.foldl max x ∈ x :: xs := by
  induction xs generalizing x with
  | nil => simp
  | cons y ys ih =>
    rw [List.foldl_cons]
    rcases List.mem_cons.mp (ih (max x y)) with h | h
    · rcases max_choice x y with hm | hm
      · rw [h, hm]; exact List.mem_cons_self _ _
      · rw [h, hm]; exact List.mem_cons_of_mem _ (List.mem_cons_self _ _)
    · exact List.mem_cons_of_mem _ (List.mem_cons_of_mem _ h)

lemma mem_le_foldl_max {a : ℚ} {xs : List ℚ} (x : ℚ) (ha : a ∈ xs) :
    a ≤ xs.foldl max x := by
  induction xs generalizing x with
  | nil => simp at ha
  | cons y ys ih =>
    rw [List.foldl_cons]
    rcases List.mem_cons.mp ha with rfl | h
    · exact le_trans (le_max_right x a) (le_foldl_max ys (max x a))
    · exact ih (max x y) h

lemma list_max_spec (xs : List ℚ) (hx : xs ≠ []) :
    list_max xs ∈ xs ∧ ∀ a ∈ xs, a ≤ list_max xs := by
  cases xs with
  | nil => exact absurd rfl hx
  | cons y ys =>
    refine ⟨foldl_max_mem ys y, ?_⟩
    intro a ha
    rcases List.mem_cons.mp ha with rfl | h
    · exact le_foldl_max ys a
    · exact mem_le_foldl_max y h

/-- C5: the alliance aggregation returns all six summary fields equal
to 0 when the valid subset is empty, and otherwise the averages are the
arithmetic means over the valid subset, the summed field is the sum of
totals, and the max field is the maximum total (an element of the
totals that bounds them all); the serving-path helpers `avg_or_zero`,
`sum_or_zero` and `max_or_zero` satisfy the same equations. -/
theorem C5_alliance_aggregation (epas : List (Option TeamRating)) (tag : String)
    (hlen : epas.length ≤ 3) :
    (epas.filterMap id = [] →
       alliance_features epas tag =
         [(tag ++ "_avg_epa", 0), (tag ++ "_avg_auto", 0), (tag ++ "_avg_teleop", 0),
          (tag ++ "_avg_endgame", 0), (tag ++ "_sum_epa", 0), (tag ++ "_max_epa", 0)]) ∧
    (epas.filterMap id ≠ [] →
       alliance_features epas tag =
         [(tag ++ "_avg_epa", ((epas.filterMap id).map TeamRating.total).sum /
             ((epas.filterMap id).length : ℚ)),
          (tag ++ "_avg_auto", ((epas.filterMap id).map TeamRating.auto).sum /
             ((epas.filterMap id).length : ℚ)),
          (tag ++ "_avg_teleop", ((epas.filterMap id).map TeamRating.teleop).sum /
             ((epas.filterMap id).length : ℚ)),
          (tag ++ "_avg_endgame", ((epas.filterMap id).map TeamRating.endgame).sum /
             ((epas.filterMap id).length : ℚ)),
          (tag ++ "_sum_epa", ((epas.filterMap id).map TeamRating.total).sum),
          (tag ++ "_max_epa", list_max ((epas.filterMap id).map TeamRating.total))] ∧
       list_max ((epas.filterMap id).map TeamRating.total) ∈
         (epas.filterMap id).map TeamRating.total ∧
       ∀ a ∈ (epas.filterMap id).map TeamRating.total,
         a ≤ list_max ((epas.filterMap id).map TeamRating.total)) ∧
    (∀ (valid : List TeamRating) (f : TeamRating → ℚ),
       (valid = [] → avg_or_zero valid f = 0 ∧ sum_or_zero valid f = 0 ∧
          max_or_zero valid f = 0) ∧
       (valid ≠ [] →
          avg_or_zero valid f = (valid.map f).sum / (valid.length : ℚ) ∧
          sum_or_zero valid f = (valid.map f).sum ∧
          max_or_zero valid f = list_max (valid.map f))) := by
  refine ⟨?_, ?_, ?_⟩
  · intro h
    simp [alliance_features, List.isEmpty_iff, h]
  · intro h
    have hmap : (epas.filterMap id).map TeamRating.total ≠ [] := by
      simpa [List.map_eq_nil] using h
    refine ⟨?_, (list_max_spec _ hmap).1, (list_max_spec _ hmap).2⟩
    simp [alliance_features, List.isEmpty_iff, h, np_mean, List.length_map]
  · intro valid f
    constructor
    · intro h
      subst h
      exact ⟨rfl, rfl, rfl⟩
    · intro h
      simp [avg_or_zero, sum_or_zero, max_or_zero, List.isEmpty_iff, h,
            np_mean, List.length_map]

/-- C5 witness: on the three valid ratings with totals 10, 20, 30 the
aggregation produces the mean, sum and maximum of the stated fields. -/
theorem C5_witness :
    alliance_features [some ⟨10, 1, 2, 3⟩, some ⟨20, 4, 5, 6⟩, some ⟨30, 7, 8, 9⟩]
        "red" =
      [("red_avg_epa",
         (([⟨10, 1, 2, 3⟩, ⟨20, 4, 5, 6⟩, ⟨30, 7, 8, 9⟩] : List TeamRating).map
           TeamRating.total).sum / ((3 : ℕ) : ℚ)),
       ("red_avg_auto",
         (([⟨10, 1, 2, 3⟩, ⟨20, 4, 5, 6⟩, ⟨30, 7, 8, 9⟩] : List TeamRating).map
           TeamRating.auto).sum / ((3 : ℕ) : ℚ)),
       ("red_avg_teleop",
         (([⟨10, 1, 2, 3⟩, ⟨20, 4, 5, 6⟩, ⟨30, 7, 8, 9⟩] : List TeamRating).map
           TeamRating.teleop).sum / ((3 : ℕ) : ℚ)),
       ("red_avg_endgame",
         (([⟨10, 1, 2, 3⟩, ⟨20, 4, 5, 6⟩, ⟨30, 7, 8, 9⟩] : List TeamRating).map
           TeamRating.endgame).sum / ((3 : ℕ) : ℚ)),
       ("red_sum_epa",
         (([⟨10, 1, 2, 3⟩, ⟨20, 4, 5, 6⟩, ⟨30, 7, 8, 9⟩] : List TeamRating).map
           TeamRating.total).sum),
       ("red_max_epa",
         list_max (([⟨10, 1, 2, 3⟩, ⟨20, 4, 5, 6⟩, ⟨30, 7, 8, 9⟩] : List TeamRating).map
           TeamRating.total))] ∧
    list_max (([⟨10, 1, 2, 3⟩, ⟨20, 4, 5, 6⟩, ⟨30, 7, 8, 9⟩] : List TeamRating).map
        TeamRating.total) ∈
      (([⟨10, 1, 2, 3⟩, ⟨20, 4, 5, 6⟩, ⟨30, 7, 8, 9⟩] : List TeamRating).map
        TeamRating.total) :=
  ⟨((C5_alliance_aggregation
       [some ⟨10, 1, 2, 3⟩, some ⟨20, 4, 5, 6⟩, some ⟨30, 7, 8, 9⟩] "red"
       (by decide)).2.1 (by decide)).1,
   ((C5_alliance_aggregation
       [some ⟨10, 1, 2, 3⟩, some ⟨20, 4, 5, 6⟩, some ⟨30, 7, 8, 9⟩] "red"
       (by decide)).2.1 (by decide)).2.1⟩

lemma serving_fetch_fetches (key : String) (now : ℚ) (resp : FetchOutcome)
    (cache : List (String × (Option TeamRatingJ × ℚ))) :
    (serving_fetch key now resp cache).fetches = 1 := by
  unfold serving_fetch
  cases resp with
  | failure => rfl
  | status code body =>
    by_cases hc : code = 200
    · simp only [hc, if_pos]
      cases hp : parse_epa_serving body <;> rfl
    · simp [hc]

lemma serving_first_call {key : String} {t0 : ℚ} {resp : FetchOutcome}
    {cache : List (String × (Option TeamRatingJ × ℚ))} {v : Option TeamRatingJ}
    (h0 : cache.lookup key = none)
    (hok : (get_team_epa_cached key t0 resp cache).result = .ok v) :
    get_team_epa_cached key t0 resp cache = ⟨.ok v, (key, (v, t0)) :: cache, 1⟩ := by
  unfold get_team_epa_cached at hok ⊢
  rw [h0] at hok ⊢
  unfold serving_fetch at hok ⊢
  cases resp with
  | failure =>
    simp only [Except.ok.injEq] at hok
    subst hok
    rfl
  | status code body =>
    by_cases hc : code = 200
    · simp only [hc, if_pos] at hok ⊢
      cases hp : parse_epa_serving body with
      | ok r =>
        rw [hp] at hok
        dsimp only at hok
        cases Except.ok.inj hok
        rfl
      | error e =>
        rw [hp] at hok
        simp at hok
    · simp only [hc, if_neg, if_false] at hok ⊢
      simp only [Except.ok.injEq] at hok
      subst hok
      rfl

/-- C6: cache discipline.  Batch path: a cache hit is returned with no
outbound call, and a resolving miss (including one resolving to
absent) stores the result so a later lookup of the same key is a hit
with no outbound call and no expiry.  Serving path: a first resolved
lookup performs one outbound call and stores the value with its
timestamp; a second lookup of the same key within the 600-second TTL
performs no outbound call and returns the cached value whether it is a
rating or absent; a lookup after the TTL has elapsed performs a new
outbound call. -/
theorem C6_cache_discipline :
    (∀ (key : String) (resp : FetchOutcome)
       (cache : List (String × Option TeamRating)) (v : Option TeamRating),
       cache.lookup key = some v →
       get_team_epa key resp cache = ⟨.ok v, cache, 0⟩) ∧
    (∀ (key : String) (resp resp' : FetchOutcome)
       (cache : List (String × Option TeamRating)) (r : Option TeamRating),
       cache.lookup key = none →
       parse_epa_batch (statbotics_get resp) = .ok r →
       get_team_epa key resp cache = ⟨.ok r, (key, r) :: cache, 1⟩ ∧
       get_team_epa key resp' ((key, r) :: cache) = ⟨.ok r, (key, r) :: cache, 0⟩) ∧
    (∀ (key : String) (t0 t1 t2 : ℚ) (resp1 resp2 resp3 : FetchOutcome)
       (cache : List (String × (Option TeamRatingJ × ℚ))) (v : Option TeamRatingJ),
       cache.lookup key = none →
       (get_team_epa_cached key t0 resp1 cache).result = .ok v →
       t1 - t0 < EPA_CACHE_TTL → EPA_CACHE_TTL ≤ t2 - t0 →
       (get_team_epa_cached key t0 resp1 cache).fetches = 1 ∧
       (get_team_epa_cached key t0 resp1 cache).cache = (key, (v, t0)) :: cache ∧
       get_team_epa_cached key t1 resp2 ((key, (v, t0)) :: cache) =
         ⟨.ok v, (key, (v, t0)) :: cache, 0⟩ ∧
       (get_team_epa_cached key t2 resp3 ((key, (v, t0)) :: cache)).fetches = 1) := by
  refine ⟨?_, ?_, ?_⟩
  · intro key resp cache v h
    simp [get_team_epa, h]
  · intro key resp resp' cache r h0 hp
    constructor
    · simp [get_team_epa, h0, hp]
    · simp [get_team_epa, List.lookup]
  · intro key t0 t1 t2 resp1 resp2 resp3 cache v h0 hok hlt hge
    have hfirst := serving_first_call h0 hok
    refine ⟨by rw [hfirst], by rw [hfirst], ?_, ?_⟩
    · unfold get_team_epa_cached
      simp only [List.lookup, beq_self_eq_true]
      rw [if_pos hlt]
    · unfold get_team_epa_cached
      simp only [List.lookup, beq_self_eq_true]
      rw [if_neg (not_lt.mpr hge)]
      exact serving_fetch_fetches key t2 resp3 _

/-- C6 witness: a concrete run of the serving cache with key
"254-2024casj": a failed fetch at time 0 is negatively cached with one
outbound call, a lookup at time 10 is served from the cache with no
outbound call, and a lookup at time 600 fetches again; a concrete batch
hit and a concrete batch miss behave likewise. -/
theorem C6_witness :
    (get_team_epa "254-2024casj" .failure
       [("254-2024casj", some ⟨1, 2, 3, 4⟩)] =
      ⟨.ok (some ⟨1, 2, 3, 4⟩), [("254-2024casj", some ⟨1, 2, 3, 4⟩)], 0⟩) ∧
    (get_team_epa "254-2024casj" .failure [] =
       ⟨.ok none, [("254-2024casj", none)], 1⟩ ∧
     get_team_epa "254-2024casj" (.status 200 (.jo [("epa", .jn 6)]))
       [("254-2024casj", none)] =
       ⟨.ok none, [("254-2024casj", none)], 0⟩) ∧
    ((get_team_epa_cached "254-2024casj" 0 .failure []).fetches = 1 ∧
     (get_team_epa_cached "254-2024casj" 0 .failure []).cache =
       [("254-2024casj", (none, 0))] ∧
     get_team_epa_cached "254-2024casj" 10 .failure
       [("254-2024casj", (none, 0))] =
       ⟨.ok none, [("254-2024casj", (none, 0))], 0⟩ ∧
     (get_team_epa_cached "254-2024casj" 600 .failure
       [("254-2024casj", (none, 0))]).fetches = 1) :=
  ⟨C6_cache_discipline.1 "254-2024casj" .failure _ _ rfl,
   C6_cache_discipline.2.1 "254-2024casj" .failure
     (.status 200 (.jo [("epa", .jn 6)])) [] none rfl rfl,
   C6_cache_discipline.2.2 "254-2024casj" 0 10 600 .failure .failure .failure
     [] none rfl rfl (by norm_num [EPA_CACHE_TTL]) (by norm_num [EPA_CACHE_TTL])⟩

/-- The first Python-truthy value of a list, `None` when there is none:
the value of a chained `a or b or c` in the flat-key fallback. -/
def first_truthy : List JVal → JVal
  | [] => .null
  | v :: vs => if pyTruthy v then v else first_truthy vs

lemma safe_mean_falsy {v : JVal} (h : pyTruthy v = false) : safe_mean v = 0 := by
  cases v with
  | null => rfl
  | jb b => simp [pyTruthy] at h; simp [safe_mean, asNum, h]
  | jn q => simp [pyTruthy] at h; simp [safe_mean, asNum, h]
  | js s => rfl
  | ja xs => rfl
  | jo fs =>
    simp [pyTruthy, List.isEmpty_iff] at h
    subst h
    rfl

lemma safe_mean_single (d : JVal) : safe_mean d = safe_mean (first_truthy [d]) := by
  unfold first_truthy
  by_cases hd : pyTruthy d
  · simp [hd]
  · have hd' : pyTruthy d = false := Bool.eq_false_iff.mpr hd
    simp [hd', safe_mean_falsy hd', first_truthy]
    rfl

lemma safe_mean_chain_cons (a : JVal) (l : List JVal) (x : JVal)
    (hx : safe_mean x = safe_mean (first_truthy l)) :
    safe_mean (pyOr a x) = safe_mean (first_truthy (a :: l)) := by
  unfold pyOr first_truthy
  by_cases ha : pyTruthy a <;> simp [ha, hx]

lemma safe_mean_chain2 (a b : JVal) :
    safe_mean (pyOr a b) = safe_mean (first_truthy [a, b]) :=
  safe_mean_chain_cons a [b] b (safe_mean_single b)

lemma safe_mean_chain4 (a b c d : JVal) :
    safe_mean (pyOr a (pyOr b (pyOr c d))) =
      safe_mean (first_truthy [a, b, c, d]) :=
  safe_mean_chain_cons a [b, c, d] _
    (safe_mean_chain_cons b [c, d] _ (safe_mean_chain2 c d))

/-- C4: the batch extraction's ordered fallback chain.  With a
structured breakdown dict, each field is the `safe_mean` of the named
point category — in particular exactly the category's numeric `"mean"`
when present.  Without one, each field is the `safe_mean` of the first
Python-truthy value among the flat top-level keys in the fixed priority
order (`total_points`, `total`, `mean`, `epa` for the total;
`*_points` then the bare name for the others).  A numeric scalar `epa`
yields `{total: scalar, auto: 0, teleop: 0, endgame: 0}`.  A field value
that cannot be coerced to a number becomes 0 while the record itself
stays present. -/
theorem C4_fallback_chain :
    (∀ (dfs fs bd : List (String × JVal)),
       dfs.lookup "epa" = some (.jo fs) →
       fs.lookup "breakdown" = some (.jo bd) →
       parse_epa_batch (some (.jo dfs)) =
         .ok (some ⟨safe_mean (dget bd "total_points"),
                    safe_mean (dget bd "auto_points"),
                    safe_mean (dget bd "teleop_points"),
                    safe_mean (dget bd "endgame_points")⟩)) ∧
    (∀ (bd tp : List (String × JVal)) (k : String) (q : ℚ),
       bd.lookup k = some (.jo tp) → tp.lookup "mean" = some (.jn q) →
       safe_mean (dget bd k) = q) ∧
    (∀ (dfs fs : List (String × JVal)),
       dfs.lookup "epa" = some (.jo fs) →
       (match fs.lookup "breakdown" with
        | some (.jo _) => False
        | _ => True) →
       parse_epa_batch (some (.jo dfs)) =
         .ok (some ⟨safe_mean (first_truthy [dget fs "total_points",
                      dget fs "total", dget fs "mean", dget fs "epa"]),
                    safe_mean (first_truthy [dget fs "auto_points",
                      dget fs "auto"]),
                    safe_mean (first_truthy [dget fs "teleop_points",
                      dget fs "teleop"]),
                    safe_mean (first_truthy [dget fs "endgame_points",
                      dget fs "endgame"])⟩)) ∧
    (∀ (dfs : List (String × JVal)) (q : ℚ),
       dfs.lookup "epa" = some (.jn q) →
       parse_epa_batch (some (.jo dfs)) = .ok (some ⟨q, 0, 0, 0⟩)) ∧
    (∀ v : JVal, asNum v = none → (∀ fs, v ≠ .jo fs) → safe_mean v = 0) ∧
    (∀ tp : List (String × JVal), asNum (dget tp "mean") = none →
       safe_mean (.jo tp) = 0) := by
  refine ⟨fun dfs fs bd he hbk => parse_batch_structured he hbk, ?_, ?_, ?_, ?_, ?_⟩
  · intro bd tp k q hk hm
    simp [dget, hk, safe_mean, hm, asNum]
  · intro dfs fs he hnb
    have hne := lookup_ne_nil he
    cases hbk : fs.lookup "breakdown" with
    | none =>
      simp only [parse_epa_batch, pyTruthy, hne, Bool.not_false, if_true,
        pyContains, he, Option.isSome_some, pyIndex, dget, hbk, Option.getD_none]
      rw [safe_mean_chain4, safe_mean_chain2, safe_mean_chain2, safe_mean_chain2]
    | some w =>
      rw [hbk] at hnb
      cases w with
      | jo bd => exact absurd hnb (by simp)
      | null =>
        simp only [parse_epa_batch, pyTruthy, hne, Bool.not_false, if_true,
          pyContains, he, Option.isSome_some, pyIndex, dget, hbk, Option.getD_some]
        rw [safe_mean_chain4, safe_mean_chain2, safe_mean_chain2, safe_mean_chain2]
      | jb b =>
        simp only [parse_epa_batch, pyTruthy, hne, Bool.not_false, if_true,
          pyContains, he, Option.isSome_some, pyIndex, dget, hbk, Option.getD_some]
        rw [safe_mean_chain4, safe_mean_chain2, safe_mean_chain2, safe_mean_chain2]
      | jn q =>
        simp only [parse_epa_batch, pyTruthy, hne, Bool.not_false, if_true,
          pyContains, he, Option.isSome_some, pyIndex, dget, hbk, Option.getD_some]
        rw [safe_mean_chain4, safe_mean_chain2, safe_mean_chain2, safe_mean_chain2]
      | js s =>
        simp only [parse_epa_batch, pyTruthy, hne, Bool.not_false, if_true,
          pyContains, he, Option.isSome_some, pyIndex, dget, hbk, Option.getD_some]
        rw [safe_mean_chain4, safe_mean_chain2, safe_mean_chain2, safe_mean_chain2]
      | ja xs =>
        simp only [parse_epa_batch, pyTruthy, hne, Bool.not_false, if_true,
          pyContains, he, Option.isSome_some, pyIndex, dget, hbk, Option.getD_some]
        rw [safe_mean_chain4, safe_mean_chain2, safe_mean_chain2, safe_mean_chain2]
  · intro dfs q he
    have hne := lookup_ne_nil he
    simp [parse_epa_batch, pyTruthy, hne, pyContains, he, pyIndex, asNum]
  · intro v h1 h2
    cases v with
    | null => rfl
    | jb b => simp [asNum] at h1
    | jn q => simp [asNum] at h1
    | js s => rfl
    | ja xs => rfl
    | jo fs => exact absurd rfl (h2 fs)
  · intro tp h
    simp [safe_mean, h]

/-- C4 witness: the flat fallback on payload
`{"epa": {"total_points": 0, "total": 12, "auto": 3}}` skips the falsy
`total_points`, takes `total` = 12 and `auto` = 3, and the scalar
payload `{"epa": 7}` yields total 7 with zero components. -/
theorem C4_witness :
    parse_epa_batch (some (.jo [("epa",
        .jo [("total_points", .jn 0), ("total", .jn 12), ("auto", .jn 3)])])) =
      .ok (some ⟨12, 3, 0, 0⟩) ∧
    parse_epa_batch (some (.jo [("epa", .jn 7)])) = .ok (some ⟨7, 0, 0, 0⟩) :=
  ⟨by
    rw [C4_fallback_chain.2.2.1
      [("epa", .jo [("total_points", .jn 0), ("total", .jn 12), ("auto", .jn 3)])]
      [("total_points", .jn 0), ("total", .jn 12), ("auto", .jn 3)] rfl trivial]
    rfl,
   by
    rw [C4_fallback_chain.2.2.2.1 [("epa", .jn 7)] 7 rfl]⟩

lemma pyRound_ge_floor (x : ℚ) : Int.floor x ≤ pyRound x := by
  simp only [pyRound]
  split_ifs <;> omega

lemma le_pyRound_of_le (n : ℤ) (x : ℚ) (h : (n : ℚ) ≤ x) : n ≤ pyRound x :=
  le_trans (Int.le_floor.mpr h) (pyRound_ge_floor x)

lemma round3_half_le {x : ℚ} (h : 1 / 2 ≤ x) : 1 / 2 ≤ round3 x := by
  unfold round3
  have h5 : (500 : ℤ) ≤ pyRound (x * 1000) :=
    le_pyRound_of_le 500 (x * 1000) (by push_cast; linarith)
  have h5q : (500 : ℚ) ≤ (pyRound (x * 1000) : ℚ) := by exact_mod_cast h5
  linarith

/-- C9: the predict endpoint's status cascade: service-unavailable
(503) exactly when models are not loaded; bad-request (400) exactly
when, with models loaded, some team list does not have exactly 3
entries; unprocessable (422) exactly when, with models loaded and both
team counts right, feature building returned nothing; otherwise a
response whose red and blue scores and margin are non-negative integers
and whose win probability is rounded to 3 decimals. -/
theorem C9_predict_statuses (ml : Bool) (rt bt : List ℤ)
    (fr : Option (List ℚ)) (p rp bp : ℚ) :
    (predict ml rt bt fr p rp bp = .httpError 503 ↔ ml = false) ∧
    (predict ml rt bt fr p rp bp = .httpError 400 ↔
       ml = true ∧ (rt.length ≠ 3 ∨ bt.length ≠ 3)) ∧
    (predict ml rt bt fr p rp bp = .httpError 422 ↔
       ml = true ∧ rt.length = 3 ∧ bt.length = 3 ∧ fr = none) ∧
    (ml = true → rt.length = 3 → bt.length = 3 → fr ≠ none →
       ∃ w wp rs bs mg, predict ml rt bt fr p rp bp = .response w wp rs bs mg) ∧
    (∀ (w : String) (wp : ℚ) (rs bs mg : ℤ),
       predict ml rt bt fr p rp bp = .response w wp rs bs mg →
       0 ≤ rs ∧ 0 ≤ bs ∧ 0 ≤ mg ∧
       wp = round3 (if p > 1 / 2 then p else 1 - p)) := by
  cases ml with
  | false =>
    refine ⟨by simp [predict], by simp [predict], by simp [predict],
      by simp, ?_⟩
    intro w wp rs bs mg h
    simp [predict] at h
  | true =>
    by_cases h3r : rt.length = 3 <;> by_cases h3b : bt.length = 3
    · cases fr with
      | none =>
        refine ⟨by simp [predict, h3r, h3b], by simp [predict, h3r, h3b],
          by simp [predict, h3r, h3b], by simp, ?_⟩
        intro w wp rs bs mg h
        simp [predict, h3r, h3b] at h
      | some X =>
        refine ⟨by simp [predict, h3r, h3b], by simp [predict, h3r, h3b],
          by simp [predict, h3r, h3b], ?_, ?_⟩
        · intro _ _ _ _
          simp only [predict, h3r, h3b]
          exact ⟨_, _, _, _, _, rfl⟩
        · intro w wp rs bs mg h
          simp only [predict, h3r, h3b] at h
          simp at h
          obtain ⟨hw, hwp, hrs, hbs, hmg⟩ := h
          subst hw
          subst hwp
          subst hrs
          subst hbs
          subst hmg
          refine ⟨le_max_left _ _, le_max_left _ _, abs_nonneg _, ?_⟩
          by_cases hp : p > 1 / 2 <;> simp [hp]
    · refine ⟨by simp [predict, h3b], by simp [predict, h3r, h3b],
        by simp [predict, h3r, h3b], by intro _ _ hb; exact absurd hb h3b, ?_⟩
      intro w wp rs bs mg h
      simp [predict, h3b] at h
    · refine ⟨by simp [predict, h3r], by simp [predict, h3r, h3b],
        by simp [predict, h3r, h3b], by intro _ hr; exact absurd hr h3r, ?_⟩
      intro w wp rs bs mg h
      simp [predict, h3r] at h
    · refine ⟨by simp [predict, h3r], by simp [predict, h3r, h3b],
        by simp [predict, h3r, h3b], by intro _ hr; exact absurd hr h3r, ?_⟩
      intro w wp rs bs mg h
      simp [predict, h3r] at h

/-- C9 witness: concrete requests hitting each failure status: models
not loaded gives 503; a 1-team red alliance gives 400; unresolvable
ratings give 422. -/
theorem C9_witness :
    predict false [] [] none 0 0 0 = .httpError 503 ∧
    predict true [1] [4, 5, 6] none 0 0 0 = .httpError 400 ∧
    predict true [1, 2, 3] [4, 5, 6] none 0 0 0 = .httpError 422 :=
  ⟨(C9_predict_statuses false [] [] none 0 0 0).1.mpr rfl,
   (C9_predict_statuses true [1] [4, 5, 6] none 0 0 0).2.1.mpr
     ⟨rfl, Or.inl (by decide)⟩,
   (C9_predict_statuses true [1, 2, 3] [4, 5, 6] none 0 0 0).2.2.1.mpr
     ⟨rfl, rfl, rfl, rfl⟩⟩

/-- C10: in every successful prediction response the reported
win_probability is the (3-decimal-rounded) probability of the reported
winner — the classifier's red-win probability when the winner is red,
one minus it when blue — and is therefore always at least 1/2. -/
theorem C10_winner_probability (rt bt : List ℤ) (fr : Option (List ℚ))
    (p rp bp : ℚ) (w : String) (wp : ℚ) (rs bs mg : ℤ)
    (h : predict true rt bt fr p rp bp = .response w wp rs bs mg) :
    (w = "red" → wp = round3 p) ∧ (w = "blue" → wp = round3 (1 - p)) ∧
    1 / 2 ≤ wp := by
  simp only [predict] at h
  split at h
  · simp at h
  · split at h
    · simp at h
    · cases fr with
      | none => simp at h
      | some X =>
      simp at h
      obtain ⟨hw, hwp, hrs, hbs, hmg⟩ := h
      subst hw
      subst hwp
      have h12 : (2⁻¹ : ℚ) = 1 / 2 := (one_div (2 : ℚ)).symm
      by_cases hp : (2⁻¹ : ℚ) < p
      · refine ⟨fun _ => by simp [hp], fun hc => ?_, ?_⟩
        · rw [if_pos hp] at hc
          simp at hc
        · rw [if_pos hp]
          exact round3_half_le (by rw [← h12]; exact le_of_lt hp)
      · refine ⟨fun hc => ?_, fun _ => by simp [hp], ?_⟩
        · rw [if_neg hp] at hc
          simp at hc
        · rw [if_neg hp]
          have hple : p ≤ 1 / 2 := by rw [← h12]; exact not_lt.mp hp
          exact round3_half_le (by linarith)

/-- C10 witness: with red-win probability 2/5 the reported winner is
blue and the reported probability is the rounded 1 - 2/5 = 3/5, at
least 1/2. -/
theorem C10_witness :
    predict true [1, 2, 3] [4, 5, 6] (some [0]) (2 / 5) 0 0 =
      .response "blue" (round3 (1 - 2 / 5)) 0 0 0 ∧
    1 / 2 ≤ round3 (1 - 2 / 5) := by
  have h : predict true [1, 2, 3] [4, 5, 6] (some [0]) (2 / 5) 0 0 =
      .response "blue" (round3 (1 - 2 / 5)) 0 0 0 := by
    norm_num [predict, pyRound]
    rw [if_neg (show ¬(("blue" : String) = "red") by decide)]
  exact ⟨h, (C10_winner_probability [1, 2, 3] [4, 5, 6] (some [0]) (2 / 5) 0 0
    "blue" (round3 (1 - 2 / 5)) 0 0 0 h).2.2⟩
